import Mathlib

/-!
Shallow embedding of the SST25 flash driver (`src/device.rs`).

The SPI bus and the three GPIO pins are external collaborators; they are
modelled by an `Oracle` that scripts, per call index, the outcome of each
bus exchange and each pin set operation (mirroring the repository's mock
style).  Every attempted bus exchange and pin set is recorded as an
`Event` in the device state, so theorems can speak about the exact wire
traffic a call produces.  The unbounded busy-wait loop of the source is
given a fuel parameter; exhausting the fuel while the loop would continue
yields the distinguished outcome `hang` (modelling non-termination).
-/

namespace Sst25

/-- Observable actions of the driver: chip-enable low/high, hold high,
write-protect low, and a bus exchange carrying the sent frame. -/
inductive Event where
  | enLow
  | enHigh
  | holdHigh
  | wpLow
  | xfer (data : List Nat)
deriving DecidableEq

/-- `CommandError` of `device.rs`; the collaborators' opaque error types
are modelled as `Nat`. -/
inductive CommandError where
  | TransferError (e : Nat)
  | EnablePinError (e : Nat)
  | HoldPinError (e : Nat)
  | WriteProtectionPinError (e : Nat)
  | Busy
  | InvalidAddress
  | BufferTooSmall
  | BufferUneven
deriving DecidableEq

/-- Mutable state of a `Flash` handle: the `configured` and `blocking`
flags plus the trace of events performed so far. -/
structure DeviceState where
  configured : Bool
  blocking : Bool
  events : List Event
deriving DecidableEq

/-- Outcome of a driver call: success, a `CommandError`, or `hang` when
the busy-wait fuel runs out (the source loop would still be spinning). -/
inductive Outcome (α : Type) where
  | ok (a : α)
  | err (e : CommandError)
  | hang
deriving DecidableEq

/-- Scripted environment: outcome of the k-th bus exchange and of the
k-th set operation on each pin (indexed per collaborator). -/
structure Oracle where
  bus : Nat → Except Nat (List Nat)
  en : Nat → Except Nat Unit
  hold : Nat → Except Nat Unit
  wp : Nat → Except Nat Unit

def isXfer : Event → Bool
  | .xfer _ => true
  | _ => false

def isEn : Event → Bool
  | .enLow => true
  | .enHigh => true
  | _ => false

def isHold : Event → Bool
  | .holdHigh => true
  | _ => false

def isWp : Event → Bool
  | .wpLow => true
  | _ => false

/-- Number of bus exchanges performed so far. -/
def countXfers (evs : List Event) : Nat := (evs.filter isXfer).length

/-- Number of enable-pin set operations performed so far. -/
def countEn (evs : List Event) : Nat := (evs.filter isEn).length

/-- Number of hold-pin set operations performed so far. -/
def countHold (evs : List Event) : Nat := (evs.filter isHold).length

/-- Number of write-protect-pin set operations performed so far. -/
def countWp (evs : List Event) : Nat := (evs.filter isWp).length

/-- The driver monad: state threading that keeps the state also on
error (Rust's `&mut self` keeps all mutations made before a `?`). -/
def M (α : Type) : Type := DeviceState → Outcome α × DeviceState

def M.pure {α : Type} (a : α) : M α := fun s => (.ok a, s)

def M.bind {α β : Type} (x : M α) (f : α → M β) : M β := fun s =>
  match x s with
  | (.ok a, s1) => f a s1
  | (.err e, s1) => (.err e, s1)
  | (.hang, s1) => (.hang, s1)

instance : Monad M where
  pure := M.pure
  bind := M.bind

def M.throw {α : Type} (e : CommandError) : M α := fun s => (.err e, s)

/-- `self.pin_enable.set_low()` / `set_high()`: the attempt is recorded
as an event, the scripted result decides success; a failure is wrapped in
`CommandError::EnablePinError` as at every call site of the source. -/
def pinEnableSet (o : Oracle) (high : Bool) : M Unit := fun s =>
  let s' := { s with events := s.events ++ [if high then Event.enHigh else Event.enLow] }
  match o.en (countEn s.events) with
  | .ok _ => (.ok (), s')
  | .error e => (.err (.EnablePinError e), s')

/-- `self.pin_hold.set_high()`, wrapped in `HoldPinError`. -/
def holdSetHigh (o : Oracle) : M Unit := fun s =>
  let s' := { s with events := s.events ++ [Event.holdHigh] }
  match o.hold (countHold s.events) with
  | .ok _ => (.ok (), s')
  | .error e => (.err (.HoldPinError e), s')

/-- `self.pin_write_protection.set_low()`, wrapped in
`WriteProtectionPinError`. -/
def wpSetLow (o : Oracle) : M Unit := fun s =>
  let s' := { s with events := s.events ++ [Event.wpLow] }
  match o.wp (countWp s.events) with
  | .ok _ => (.ok (), s')
  | .error e => (.err (.WriteProtectionPinError e), s')

/-- `self.bus.transfer(data)`, wrapped in `TransferError` as at every
call site of the source; records the sent frame. -/
def busTransfer (o : Oracle) (data : List Nat) : M (List Nat) := fun s =>
  let s' := { s with events := s.events ++ [Event.xfer data] }
  match o.bus (countXfers s.events) with
  | .ok r => (.ok r, s')
  | .error e => (.err (.TransferError e), s')

/-- `Flash::configure`: one-time base GPIO setup (hold high, then
write-protect low); sets `configured` only after both pin sets succeed. -/
def configure (o : Oracle) : M Unit := fun s =>
  if s.configured then (.ok (), s)
  else
    match holdSetHigh o s with
    | (.ok _, s1) =>
      (match wpSetLow o s1 with
       | (.ok _, s2) => (.ok (), { s2 with configured := true })
       | (.err e, s2) => (.err e, s2)
       | (.hang, s2) => (.hang, s2))
    | (.err e, s1) => (.err e, s1)
    | (.hang, s1) => (.hang, s1)

/-- `Flash::transfer`: configure, enable low, bus exchange, enable high.
The enable-high attempt happens even when the exchange failed, and an
enable-high failure supersedes the exchange's error (source lines
399-407). -/
def transfer (o : Oracle) (data : List Nat) : M (List Nat) :=
  M.bind (configure o) fun _ =>
  M.bind (pinEnableSet o false) fun _ =>
  fun s =>
    match busTransfer o data s with
    | (r, s1) =>
      match pinEnableSet o true s1 with
      | (.ok _, s2) => (r, s2)
      | (.err e, s2) => (.err e, s2)
      | (.hang, s2) => (.hang, s2)

/-- Status register mapped to booleans, mirroring the Rust `Status`. -/
structure Status where
  busy : Bool
  write_enabled : Bool
  block0_protected : Bool
  block1_protected : Bool
  block2_protected : Bool
  block3_protected : Bool
  aai_programming_mode : Bool
  bits_read_only : Bool
deriving DecidableEq

/-- `Status::from_register`: bit `n` of the register byte to field `n`. -/
def Status.from_register (data : Nat) : Status where
  busy := data &&& (1 <<< 0) != 0
  write_enabled := data &&& (1 <<< 1) != 0
  block0_protected := data &&& (1 <<< 2) != 0
  block1_protected := data &&& (1 <<< 3) != 0
  block2_protected := data &&& (1 <<< 4) != 0
  block3_protected := data &&& (1 <<< 5) != 0
  aai_programming_mode := data &&& (1 <<< 6) != 0
  bits_read_only := data &&& (1 <<< 7) != 0

/-- `Status::to_registers`: only the five writable bits are serialized. -/
def Status.to_registers (s : Status) : Nat :=
  let result := 0
  let result := if s.block0_protected then result ||| (1 <<< 2) else result
  let result := if s.block1_protected then result ||| (1 <<< 3) else result
  let result := if s.block2_protected then result ||| (1 <<< 4) else result
  let result := if s.block3_protected then result ||| (1 <<< 5) else result
  let result := if s.bits_read_only then result ||| (1 <<< 7) else result
  result

def CMD_AAI_PROGRAM : Nat := 0b10101101

/-- `Flash::address_command`: writes the three big-endian address bytes
into frame positions 1..3 (`as u8` truncation modelled by `% 256`). -/
def address_command (address : Nat) (frame : List Nat) : List Nat :=
  ((frame.set 1 ((address >>> 16) % 256)).set 2 ((address >>> 8) % 256)).set 3 (address % 256)

/-- `Memory::read_status`: sends the status opcode plus one dummy byte
and decodes byte 1 of the response.  The transport contract guarantees a
response of the sent length; `getD` realizes that contract totally. -/
def read_status (o : Oracle) : M Status :=
  M.bind (transfer o [0b00000101, 0x0]) fun r =>
  M.pure (Status.from_register (r.getD 1 0))

/-- `Memory::write_enable`. -/
def write_enable (o : Oracle) : M Unit :=
  M.bind (transfer o [0b00000110]) fun _ => M.pure ()

/-- `Memory::write_disable`. -/
def write_disable (o : Oracle) : M Unit :=
  M.bind (transfer o [0b00000100]) fun _ => M.pure ()

/-- `Flash::assert_not_busy`: one status read; `Busy` if the busy bit is
set. -/
def assert_not_busy (o : Oracle) : M Unit :=
  M.bind (read_status o) fun st =>
  if st.busy then M.throw .Busy else M.pure ()

/-- `Flash::assert_valid_address`: rejects addresses strictly greater
than 16777216. -/
def assert_valid_address (address : Nat) : M Unit := fun s =>
  if address > 16777216 then (.err .InvalidAddress, s) else (.ok (), s)

/-- `Flash::wait` with fuel: loops `while (blocking || force) && busy`,
one status read per iteration; `hang` when the fuel is exhausted while
the loop would continue. -/
def wait (o : Oracle) (force : Bool) : Nat → M Unit
  | 0 => fun s =>
    if s.blocking || force then
      match read_status o s with
      | (.ok st, s1) => if st.busy then (.hang, s1) else (.ok (), s1)
      | (.err e, s1) => (.err e, s1)
      | (.hang, s1) => (.hang, s1)
    else (.ok (), s)
  | fuel + 1 => fun s =>
    if s.blocking || force then
      match read_status o s with
      | (.ok st, s1) => if st.busy then wait o force fuel s1 else (.ok (), s1)
      | (.err e, s1) => (.err e, s1)
      | (.hang, s1) => (.hang, s1)
    else (.ok (), s)

/-- `Memory::write_status`: write-enable, a raw one-byte bus exchange
(no enable-pin handling, as in the source), then the status write. -/
def write_status (o : Oracle) (status : Status) : M Unit :=
  M.bind (write_enable o) fun _ =>
  M.bind (busTransfer o [0x0]) fun _ =>
  M.bind (transfer o [0b00000001, status.to_registers]) fun _ =>
  M.pure ()

/-- `Memory::erase_full`: write-enable, busy check, erase opcode, then
`wait(false)` (the wait honours the blocking flag). -/
def erase_full (o : Oracle) (fuel : Nat) : M Unit :=
  M.bind (write_enable o) fun _ =>
  M.bind (assert_not_busy o) fun _ =>
  M.bind (transfer o [0b01100000]) fun _ =>
  wait o false fuel

/-- `Memory::byte_program`. -/
def byte_program (o : Oracle) (address : Nat) (data : Nat) (fuel : Nat) : M Unit :=
  M.bind (assert_valid_address address) fun _ =>
  M.bind (write_enable o) fun _ =>
  M.bind (assert_not_busy o) fun _ =>
  M.bind (transfer o (address_command address [0b00000010, 0x0, 0x0, 0x0, data])) fun _ =>
  wait o false fuel

/-- The `for chunk in buffer[2..].chunks(2)` loop of `aai_program`.  A
one-element tail is unreachable: the caller has checked the buffer
length to be even. -/
def aai_chunks (o : Oracle) (fuel : Nat) : List Nat → M Unit
  | c0 :: c1 :: rest =>
    M.bind (transfer o [CMD_AAI_PROGRAM, c0, c1]) fun _ =>
    M.bind (wait o true fuel) fun _ =>
    aai_chunks o fuel rest
  | _ => M.pure ()

/-- `Memory::aai_program`. -/
def aai_program (o : Oracle) (address : Nat) (buffer : List Nat) (fuel : Nat) : M Unit :=
  M.bind (assert_valid_address address) fun _ =>
  M.bind (if buffer.length < 2 then M.throw .BufferTooSmall else M.pure ()) fun _ =>
  M.bind (if buffer.length &&& 1 == 1 then M.throw .BufferUneven else M.pure ()) fun _ =>
  M.bind (write_enable o) fun _ =>
  M.bind (assert_not_busy o) fun _ =>
  M.bind (transfer o (address_command address
    [CMD_AAI_PROGRAM, 0x0, 0x0, 0x0, buffer.getD 0 0, buffer.getD 1 0])) fun _ =>
  M.bind (wait o true fuel) fun _ =>
  M.bind (aai_chunks o fuel (buffer.drop 2)) fun _ =>
  write_disable o

/-- `buffer.clone_from_slice(data)` under the transport's equal-length
contract: the result always has exactly `L` bytes. -/
def fit (L : Nat) (data : List Nat) : List Nat := (data ++ List.replicate L 0).take L

/-- `Memory::read`: validate, configure, enable low, send opcode plus
address, then an `L`-byte dummy exchange; enable high on every path,
with an enable failure superseding a transfer error (source lines
355-382). -/
def read (o : Oracle) (L : Nat) (address : Nat) : M (List Nat) :=
  M.bind (assert_valid_address address) fun _ =>
  M.bind (configure o) fun _ =>
  M.bind (pinEnableSet o false) fun _ =>
  fun s =>
    match busTransfer o (address_command address [0b00000011, 0x0, 0x0, 0x0]) s with
    | (.ok _, s1) =>
      (match busTransfer o (List.replicate L 0) s1 with
       | (.ok data, s2) =>
         (match pinEnableSet o true s2 with
          | (.ok _, s3) => (.ok (fit L data), s3)
          | (.err e, s3) => (.err e, s3)
          | (.hang, s3) => (.hang, s3))
       | (.err e, s2) =>
         (match pinEnableSet o true s2 with
          | (.ok _, s3) => (.err e, s3)
          | (.err e2, s3) => (.err e2, s3)
          | (.hang, s3) => (.hang, s3))
       | (.hang, s2) => (.hang, s2))
    | (.err e, s1) =>
      (match pinEnableSet o true s1 with
       | (.ok _, s2) => (.err e, s2)
       | (.err e2, s2) => (.err e2, s2)
       | (.hang, s2) => (.hang, s2))
    | (.hang, s1) => (.hang, s1)

/-- `Flash::new`: fresh handle, not configured, blocking by default. -/
def Flash.new : DeviceState := { configured := false, blocking := true, events := [] }

/-- `Memory::set_blocking`. -/
def set_blocking (s : DeviceState) : DeviceState := { s with blocking := true }

/-- `Memory::set_non_blocking`. -/
def set_non_blocking (s : DeviceState) : DeviceState := { s with blocking := false }

/-- Events of one complete command transaction carrying frame `f`. -/
def txnEvents (f : List Nat) : List Event := [Event.enLow, Event.xfer f, Event.enHigh]

/-- Events of one status-read transaction. -/
def statusReadEvents : List Event := txnEvents [0b00000101, 0x0]

/-- Errors that wrap a collaborator (bus or pin) failure; the only
errors a `transfer` or a busy-wait can produce. -/
def HwErr : CommandError → Prop
  | .TransferError _ => True
  | .EnablePinError _ => True
  | .HoldPinError _ => True
  | .WriteProtectionPinError _ => True
  | _ => False

/-- Every error outcome of `m` satisfies `P`. -/
def ErrOK (P : CommandError → Prop) {α : Type} (m : M α) : Prop :=
  ∀ s e, (m s).1 = .err e → P e

/-- Once the handle is configured, running `m` keeps it configured and
touches neither the hold pin nor the write-protect pin. -/
def Preserves {α : Type} (m : M α) : Prop :=
  ∀ s, s.configured = true →
    (m s).2.configured = true ∧
    countHold (m s).2.events = countHold s.events ∧
    countWp (m s).2.events = countWp s.events

/-- Events produced by the `aai_program` chunk loop on the remaining
buffer, one transaction plus one forced status poll per 2-byte chunk. -/
def aaiChunkEvents : List Nat → List Event
  | c0 :: c1 :: rest =>
    txnEvents [CMD_AAI_PROGRAM, c0, c1] ++ statusReadEvents ++ aaiChunkEvents rest
  | _ => []

/-- Expected wire protocol of a structurally valid `aai_program` call on
an idle chip, per the spec: write-enable, one pre-command status check,
the first chunk carrying opcode + 3 big-endian address bytes + first two
buffer bytes, a forced status poll, then per 2-byte chunk one
opcode+chunk transaction and a forced status poll, and finally
write-disable. -/
def aaiSpecTrace (address : Nat) (buffer : List Nat) : List Event :=
  txnEvents [0b00000110] ++ statusReadEvents ++
  txnEvents [CMD_AAI_PROGRAM, (address >>> 16) % 256, (address >>> 8) % 256, address % 256,
    buffer.getD 0 0, buffer.getD 1 0] ++
  statusReadEvents ++ aaiChunkEvents (buffer.drop 2) ++
  txnEvents [0b00000100]

/-- Oracle on which every collaborator call succeeds and every bus
exchange answers `[0, 0]` (chip idle, never busy). -/
def cleanOracle : Oracle where
  bus := fun _ => .ok [0, 0]
  en := fun _ => .ok ()
  hold := fun _ => .ok ()
  wp := fun _ => .ok ()

/-- Bus script: write-enable, status clear, command, then two busy
status answers and a clear one (the scenario of the blocking tests). -/
def busyThenClearBus : Nat → Except Nat (List Nat)
  | 3 => .ok [0, 1]
  | 4 => .ok [0, 1]
  | _ => .ok [0, 0]

def busyThenClearOracle : Oracle := { cleanOracle with bus := busyThenClearBus }

/-- Bus script: the chip answers busy on every status read issued after
the command at bus index 2. -/
def busyAfterBus : Nat → Except Nat (List Nat)
  | 0 => .ok [0, 0]
  | 1 => .ok [0, 0]
  | 2 => .ok [0, 0]
  | _ => .ok [0, 1]

def busyAfterOracle : Oracle := { cleanOracle with bus := busyAfterBus }

/-- An already-configured idle handle in blocking mode. -/
def configuredState : DeviceState where
  configured := true
  blocking := true
  events := []

/-- Bus script: the pre-command status check (bus index 1) answers
busy; everything else is clear. -/
def busyNowBus : Nat → Except Nat (List Nat)
  | 1 => .ok [0, 1]
  | _ => .ok [0, 0]

def busyNowOracle : Oracle := { cleanOracle with bus := busyNowBus }

/-- Enable-pin script: the second set operation (the deassertion after
the first exchange) fails with error 21. -/
def unwindEn : Nat → Except Nat Unit
  | 1 => .error 21
  | _ => .ok ()

/-- Oracle on which every bus exchange fails with error 30 and the
enable-pin deassertion after the first exchange fails with error 21. -/
def unwindOracle : Oracle where
  bus := fun _ => .error 30
  en := unwindEn
  hold := fun _ => .ok ()
  wp := fun _ => .ok ()

/-! ### Basic lemmas about the monad and the event counters -/

lemma M.bind_ok {α β : Type} {x : M α} {f : α → M β} {s s1 : DeviceState} {a : α}
    (h : x s = (.ok a, s1)) : M.bind x f s = f a s1 := by
  simp only [M.bind, h]

lemma M.bind_err {α β : Type} {x : M α} {f : α → M β} {s s1 : DeviceState} {e : CommandError}
    (h : x s = (.err e, s1)) : M.bind x f s = (.err e, s1) := by
  simp only [M.bind, h]

@[simp] lemma countXfers_append (a b : List Event) :
    countXfers (a ++ b) = countXfers a + countXfers b := by
  simp [countXfers, List.filter_append]

@[simp] lemma countEn_append (a b : List Event) :
    countEn (a ++ b) = countEn a + countEn b := by
  simp [countEn, List.filter_append]

@[simp] lemma countHold_append (a b : List Event) :
    countHold (a ++ b) = countHold a + countHold b := by
  simp [countHold, List.filter_append]

@[simp] lemma countWp_append (a b : List Event) :
    countWp (a ++ b) = countWp a + countWp b := by
  simp [countWp, List.filter_append]

attribute [simp] isXfer isEn isHold isWp

@[simp] lemma countXfers_nil : countXfers [] = 0 := rfl
@[simp] lemma countEn_nil : countEn [] = 0 := rfl
@[simp] lemma countHold_nil : countHold [] = 0 := rfl
@[simp] lemma countWp_nil : countWp [] = 0 := rfl

@[simp] lemma countXfers_cons (e : Event) (l : List Event) :
    countXfers (e :: l) = (if isXfer e then 1 else 0) + countXfers l := by
  cases e <;> simp [countXfers, List.filter_cons] <;> omega

@[simp] lemma countEn_cons (e : Event) (l : List Event) :
    countEn (e :: l) = (if isEn e then 1 else 0) + countEn l := by
  cases e <;> simp [countEn, List.filter_cons] <;> omega

@[simp] lemma countHold_cons (e : Event) (l : List Event) :
    countHold (e :: l) = (if isHold e then 1 else 0) + countHold l := by
  cases e <;> simp [countHold, List.filter_cons] <;> omega

@[simp] lemma countWp_cons (e : Event) (l : List Event) :
    countWp (e :: l) = (if isWp e then 1 else 0) + countWp l := by
  cases e <;> simp [countWp, List.filter_cons] <;> omega

@[simp] lemma countXfers_enLow : countXfers [Event.enLow] = 0 := rfl
@[simp] lemma countXfers_enHigh : countXfers [Event.enHigh] = 0 := rfl
@[simp] lemma countXfers_holdHigh : countXfers [Event.holdHigh] = 0 := rfl
@[simp] lemma countXfers_wpLow : countXfers [Event.wpLow] = 0 := rfl
@[simp] lemma countXfers_xfer (d : List Nat) : countXfers [Event.xfer d] = 1 := rfl
@[simp] lemma countEn_enLow : countEn [Event.enLow] = 1 := rfl
@[simp] lemma countEn_enHigh : countEn [Event.enHigh] = 1 := rfl
@[simp] lemma countEn_holdHigh : countEn [Event.holdHigh] = 0 := rfl
@[simp] lemma countEn_wpLow : countEn [Event.wpLow] = 0 := rfl
@[simp] lemma countEn_xfer (d : List Nat) : countEn [Event.xfer d] = 0 := rfl
@[simp] lemma countHold_enLow : countHold [Event.enLow] = 0 := rfl
@[simp] lemma countHold_enHigh : countHold [Event.enHigh] = 0 := rfl
@[simp] lemma countHold_holdHigh : countHold [Event.holdHigh] = 1 := rfl
@[simp] lemma countHold_wpLow : countHold [Event.wpLow] = 0 := rfl
@[simp] lemma countHold_xfer (d : List Nat) : countHold [Event.xfer d] = 0 := rfl
@[simp] lemma countWp_enLow : countWp [Event.enLow] = 0 := rfl
@[simp] lemma countWp_enHigh : countWp [Event.enHigh] = 0 := rfl
@[simp] lemma countWp_holdHigh : countWp [Event.holdHigh] = 0 := rfl
@[simp] lemma countWp_wpLow : countWp [Event.wpLow] = 1 := rfl
@[simp] lemma countWp_xfer (d : List Nat) : countWp [Event.xfer d] = 0 := rfl

@[simp] lemma countXfers_txn (f : List Nat) : countXfers (txnEvents f) = 1 := rfl
@[simp] lemma countEn_txn (f : List Nat) : countEn (txnEvents f) = 2 := rfl
@[simp] lemma countHold_txn (f : List Nat) : countHold (txnEvents f) = 0 := rfl
@[simp] lemma countWp_txn (f : List Nat) : countWp (txnEvents f) = 0 := rfl

/-! ### Step lemmas for the primitives -/

/-- The busy field decoded from a register byte is its parity bit. -/
lemma from_register_busy (b : Nat) : (Status.from_register b).busy = decide (b % 2 = 1) := by
  rcases Nat.mod_two_eq_zero_or_one b with h | h <;>
    simp [Status.from_register, Nat.and_one_is_mod, h]

lemma configure_done (o : Oracle) {s : DeviceState} (hc : s.configured = true) :
    configure o s = (.ok (), s) := by
  simp [configure, hc]

lemma pinEnableSet_ok (o : Oracle) (high : Bool) {s : DeviceState}
    (h : o.en (countEn s.events) = .ok ()) :
    pinEnableSet o high s =
      (.ok (), { s with events := s.events ++ [if high then Event.enHigh else Event.enLow] }) := by
  simp [pinEnableSet, h]

lemma pinEnableSet_err (o : Oracle) (high : Bool) {s : DeviceState} {e : Nat}
    (h : o.en (countEn s.events) = .error e) :
    pinEnableSet o high s =
      (.err (.EnablePinError e),
        { s with events := s.events ++ [if high then Event.enHigh else Event.enLow] }) := by
  simp [pinEnableSet, h]

lemma busTransfer_ok (o : Oracle) (data : List Nat) {s : DeviceState} {r : List Nat}
    (h : o.bus (countXfers s.events) = .ok r) :
    busTransfer o data s = (.ok r, { s with events := s.events ++ [Event.xfer data] }) := by
  simp [busTransfer, h]

lemma busTransfer_err (o : Oracle) (data : List Nat) {s : DeviceState} {e : Nat}
    (h : o.bus (countXfers s.events) = .error e) :
    busTransfer o data s =
      (.err (.TransferError e), { s with events := s.events ++ [Event.xfer data] }) := by
  simp [busTransfer, h]

/-- A fully successful `transfer` appends exactly one transaction's
events and returns the bus response. -/
lemma transfer_ok (o : Oracle) (data : List Nat) {s : DeviceState} {r : List Nat}
    (hc : s.configured = true)
    (h0 : o.en (countEn s.events) = .ok ())
    (h1 : o.en (countEn s.events + 1) = .ok ())
    (hb : o.bus (countXfers s.events) = .ok r) :
    transfer o data s = (.ok r, { s with events := s.events ++ txnEvents data }) := by
  simp [transfer, M.bind, configure, pinEnableSet, busTransfer, hc, h0, h1, hb, txnEvents]

/-- A `transfer` whose bus exchange fails but whose pin operations
succeed appends the same transaction events and reports the transfer
error. -/
lemma transfer_busErr (o : Oracle) (data : List Nat) {s : DeviceState} {e : Nat}
    (hc : s.configured = true)
    (h0 : o.en (countEn s.events) = .ok ())
    (h1 : o.en (countEn s.events + 1) = .ok ())
    (hb : o.bus (countXfers s.events) = .error e) :
    transfer o data s =
      (.err (.TransferError e), { s with events := s.events ++ txnEvents data }) := by
  simp [transfer, M.bind, configure, pinEnableSet, busTransfer, hc, h0, h1, hb, txnEvents]

/-- If the bus exchange fails and the following enable-high also fails,
the enable-pin error supersedes the transfer error. -/
lemma transfer_busErr_enErr (o : Oracle) (data : List Nat) {s : DeviceState} {e e2 : Nat}
    (hc : s.configured = true)
    (h0 : o.en (countEn s.events) = .ok ())
    (h1 : o.en (countEn s.events + 1) = .error e2)
    (hb : o.bus (countXfers s.events) = .error e) :
    transfer o data s =
      (.err (.EnablePinError e2), { s with events := s.events ++ txnEvents data }) := by
  simp [transfer, M.bind, configure, pinEnableSet, busTransfer, hc, h0, h1, hb, txnEvents]

/-- Once the enable line has been asserted low, the deassertion is
attempted no matter how the bus exchange and the deassertion itself turn
out: the trace always ends with the full transaction events. -/
lemma transfer_events (o : Oracle) (data : List Nat) {s : DeviceState}
    (hc : s.configured = true)
    (h0 : o.en (countEn s.events) = .ok ()) :
    (transfer o data s).2 =
      { s with events := s.events ++ txnEvents data } := by
  rcases hb : o.bus (countXfers s.events) with e | r <;>
    rcases h1 : o.en (countEn s.events + 1) with e2 | u <;>
      simp [transfer, M.bind, configure, pinEnableSet, busTransfer, hc, h0, h1, hb, txnEvents]

lemma read_status_ok (o : Oracle) {s : DeviceState} {r : List Nat}
    (hc : s.configured = true)
    (h0 : o.en (countEn s.events) = .ok ())
    (h1 : o.en (countEn s.events + 1) = .ok ())
    (hb : o.bus (countXfers s.events) = .ok r) :
    read_status o s =
      (.ok (Status.from_register (r.getD 1 0)),
        { s with events := s.events ++ statusReadEvents }) := by
  rw [read_status, M.bind_ok (transfer_ok o _ hc h0 h1 hb)]
  rfl

lemma write_enable_ok (o : Oracle) {s : DeviceState} {r : List Nat}
    (hc : s.configured = true)
    (h0 : o.en (countEn s.events) = .ok ())
    (h1 : o.en (countEn s.events + 1) = .ok ())
    (hb : o.bus (countXfers s.events) = .ok r) :
    write_enable o s = (.ok (), { s with events := s.events ++ txnEvents [0b00000110] }) := by
  rw [write_enable, M.bind_ok (transfer_ok o _ hc h0 h1 hb)]
  rfl

lemma write_disable_ok (o : Oracle) {s : DeviceState} {r : List Nat}
    (hc : s.configured = true)
    (h0 : o.en (countEn s.events) = .ok ())
    (h1 : o.en (countEn s.events + 1) = .ok ())
    (hb : o.bus (countXfers s.events) = .ok r) :
    write_disable o s = (.ok (), { s with events := s.events ++ txnEvents [0b00000100] }) := by
  rw [write_disable, M.bind_ok (transfer_ok o _ hc h0 h1 hb)]
  rfl

lemma assert_not_busy_clear (o : Oracle) {s : DeviceState} {r : List Nat}
    (hc : s.configured = true)
    (h0 : o.en (countEn s.events) = .ok ())
    (h1 : o.en (countEn s.events + 1) = .ok ())
    (hb : o.bus (countXfers s.events) = .ok r)
    (hbusy : r.getD 1 0 % 2 = 0) :
    assert_not_busy o s = (.ok (), { s with events := s.events ++ statusReadEvents }) := by
  rw [assert_not_busy, M.bind_ok (read_status_ok o hc h0 h1 hb)]
  simp only [from_register_busy, hbusy]
  simp [M.pure]

lemma assert_not_busy_busy (o : Oracle) {s : DeviceState} {r : List Nat}
    (hc : s.configured = true)
    (h0 : o.en (countEn s.events) = .ok ())
    (h1 : o.en (countEn s.events + 1) = .ok ())
    (hb : o.bus (countXfers s.events) = .ok r)
    (hbusy : r.getD 1 0 % 2 = 1) :
    assert_not_busy o s = (.err .Busy, { s with events := s.events ++ statusReadEvents }) := by
  rw [assert_not_busy, M.bind_ok (read_status_ok o hc h0 h1 hb)]
  simp only [from_register_busy, hbusy]
  simp [M.throw]

/-- In non-blocking mode an unforced wait performs nothing at all. -/
lemma wait_noblock (o : Oracle) (fuel : Nat) {s : DeviceState} (h : s.blocking = false) :
    wait o false fuel s = (.ok (), s) := by
  cases fuel <;> simp [wait, h]

/-- An active wait whose first status read reports not-busy performs
exactly one status-read transaction. -/
lemma wait_clear (o : Oracle) (force : Bool) (fuel : Nat) {s : DeviceState} {r : List Nat}
    (hcond : (s.blocking || force) = true)
    (hc : s.configured = true)
    (h0 : o.en (countEn s.events) = .ok ())
    (h1 : o.en (countEn s.events + 1) = .ok ())
    (hb : o.bus (countXfers s.events) = .ok r)
    (hbusy : r.getD 1 0 % 2 = 0) :
    wait o force fuel s = (.ok (), { s with events := s.events ++ statusReadEvents }) := by
  cases fuel <;>
    · simp only [wait, hcond, if_true, read_status_ok o hc h0 h1 hb, from_register_busy, hbusy]
      simp

/-- An active wait whose first status read reports busy recurses with
one unit of fuel less, the status-read transaction recorded. -/
lemma wait_busy_succ (o : Oracle) (force : Bool) (fuel : Nat) {s : DeviceState} {r : List Nat}
    (hcond : (s.blocking || force) = true)
    (hc : s.configured = true)
    (h0 : o.en (countEn s.events) = .ok ())
    (h1 : o.en (countEn s.events + 1) = .ok ())
    (hb : o.bus (countXfers s.events) = .ok r)
    (hbusy : r.getD 1 0 % 2 = 1) :
    wait o force (fuel + 1) s =
      wait o force fuel { s with events := s.events ++ statusReadEvents } := by
  simp only [wait, hcond, if_true, read_status_ok o hc h0 h1 hb, from_register_busy, hbusy]
  simp

/-! ### Which errors each component can produce -/

lemma ErrOK_mono {P Q : CommandError → Prop} {α : Type} {m : M α}
    (hm : ErrOK P m) (hpq : ∀ e, P e → Q e) : ErrOK Q m :=
  fun s e h => hpq e (hm s e h)

lemma ErrOK_bind {P : CommandError → Prop} {α β : Type} {x : M α} {f : α → M β}
    (hx : ErrOK P x) (hf : ∀ a, ErrOK P (f a)) : ErrOK P (M.bind x f) := by
  intro s e h
  rcases hxs : x s with ⟨r, s1⟩
  rw [M.bind] at h
  rw [hxs] at h
  cases r with
  | ok a => exact hf a s1 e h
  | err e2 =>
    cases h
    exact hx s _ (by rw [hxs])
  | hang => cases h

lemma ErrOK_pure {P : CommandError → Prop} {α : Type} (a : α) : ErrOK P (M.pure a) := by
  intro s e h
  cases h

lemma ErrOK_pinEnableSet {P : CommandError → Prop} (o : Oracle) (high : Bool)
    (hp : ∀ n, P (.EnablePinError n)) : ErrOK P (pinEnableSet o high) := by
  intro s e h
  rw [pinEnableSet] at h
  rcases he : o.en (countEn s.events) with n | u <;> rw [he] at h
  · cases h
    exact hp n
  · cases h

lemma ErrOK_holdSetHigh {P : CommandError → Prop} (o : Oracle)
    (hp : ∀ n, P (.HoldPinError n)) : ErrOK P (holdSetHigh o) := by
  intro s e h
  rw [holdSetHigh] at h
  rcases he : o.hold (countHold s.events) with n | u <;> rw [he] at h
  · cases h
    exact hp n
  · cases h

lemma ErrOK_wpSetLow {P : CommandError → Prop} (o : Oracle)
    (hp : ∀ n, P (.WriteProtectionPinError n)) : ErrOK P (wpSetLow o) := by
  intro s e h
  rw [wpSetLow] at h
  rcases he : o.wp (countWp s.events) with n | u <;> rw [he] at h
  · cases h
    exact hp n
  · cases h

lemma ErrOK_busTransfer {P : CommandError → Prop} (o : Oracle) (data : List Nat)
    (hp : ∀ n, P (.TransferError n)) : ErrOK P (busTransfer o data) := by
  intro s e h
  rw [busTransfer] at h
  rcases he : o.bus (countXfers s.events) with n | r <;> rw [he] at h
  · cases h
    exact hp n
  · cases h

lemma ErrOK_configure (o : Oracle) : ErrOK HwErr (configure o) := by
  intro s e h
  by_cases hc : s.configured
  · simp [configure, hc] at h
  · rcases hh : o.hold (countHold s.events) with nh | uh <;>
      rcases hw : o.wp (countWp s.events) with nw | uw <;>
        simp_all [configure, holdSetHigh, wpSetLow]
    all_goals cases h
    all_goals trivial

lemma ErrOK_transfer (o : Oracle) (data : List Nat) : ErrOK HwErr (transfer o data) := by
  rw [transfer]
  apply ErrOK_bind (ErrOK_configure o)
  intro _
  apply ErrOK_bind (ErrOK_pinEnableSet (P := HwErr) o false (fun n => trivial))
  intro _ s e h
  rcases hb : busTransfer o data s with ⟨rb, s1⟩
  rcases hp : pinEnableSet o true s1 with ⟨rp, s2⟩
  simp only [hb] at h
  simp only [hp] at h
  cases rp with
  | ok a =>
    cases rb with
    | ok r => cases h
    | err e2 =>
      cases h
      exact ErrOK_busTransfer (P := HwErr) o data (fun n => trivial) s _ (by rw [hb])
    | hang => cases h
  | err e2 =>
    cases h
    exact ErrOK_pinEnableSet (P := HwErr) o true (fun n => trivial) s1 _ (by rw [hp])
  | hang => cases h

lemma ErrOK_read_status (o : Oracle) : ErrOK HwErr (read_status o) := by
  rw [read_status]
  exact ErrOK_bind (ErrOK_transfer o _) (fun r => ErrOK_pure _)

lemma ErrOK_write_enable (o : Oracle) : ErrOK HwErr (write_enable o) := by
  rw [write_enable]
  exact ErrOK_bind (ErrOK_transfer o _) (fun r => ErrOK_pure _)

lemma ErrOK_write_disable (o : Oracle) : ErrOK HwErr (write_disable o) := by
  rw [write_disable]
  exact ErrOK_bind (ErrOK_transfer o _) (fun r => ErrOK_pure _)

/-- Errors the write/erase pre-command phase can produce: collaborator
failures or `Busy`. -/
def ProtoErr (e : CommandError) : Prop := HwErr e ∨ e = .Busy

lemma ErrOK_assert_not_busy (o : Oracle) : ErrOK ProtoErr (assert_not_busy o) := by
  rw [assert_not_busy]
  apply ErrOK_bind (ErrOK_mono (ErrOK_read_status o) (fun e he => Or.inl he))
  intro st s e h
  split at h
  · cases h
    exact Or.inr rfl
  · cases h

lemma ErrOK_wait (o : Oracle) (force : Bool) : ∀ fuel, ErrOK HwErr (wait o force fuel) := by
  intro fuel
  induction fuel with
  | zero =>
    intro s e h
    simp only [wait] at h
    split at h
    · split at h
      · split at h <;> cases h
      · rename_i heq
        cases h
        exact ErrOK_read_status o s _ (by rw [heq])
      · cases h
    · cases h
  | succ n ih =>
    intro s e h
    simp only [wait] at h
    split at h
    · split at h
      · split at h
        · exact ih _ e h
        · cases h
      · rename_i heq
        cases h
        exact ErrOK_read_status o s _ (by rw [heq])
      · cases h
    · cases h

lemma aai_chunks_nil (o : Oracle) (fuel : Nat) : aai_chunks o fuel [] = M.pure () := rfl

lemma aai_chunks_one (o : Oracle) (fuel : Nat) (c : Nat) :
    aai_chunks o fuel [c] = M.pure () := rfl

lemma aai_chunks_cons (o : Oracle) (fuel : Nat) (c0 c1 : Nat) (rest : List Nat) :
    aai_chunks o fuel (c0 :: c1 :: rest) =
      M.bind (transfer o [CMD_AAI_PROGRAM, c0, c1]) (fun _ =>
      M.bind (wait o true fuel) (fun _ =>
      aai_chunks o fuel rest)) := rfl

lemma ErrOK_aai_chunks (o : Oracle) (fuel : Nat) :
    ∀ rest, ErrOK HwErr (aai_chunks o fuel rest) := by
  have key : ∀ n rest, List.length rest ≤ n → ErrOK HwErr (aai_chunks o fuel rest) := by
    intro n
    induction n with
    | zero =>
      intro rest h
      have h0 : rest = [] := List.length_eq_zero.mp (Nat.le_zero.mp h)
      subst h0
      rw [aai_chunks_nil]
      exact ErrOK_pure _
    | succ n ih =>
      intro rest h
      rcases rest with _ | ⟨c0, _ | ⟨c1, rest2⟩⟩
      · rw [aai_chunks_nil]
        exact ErrOK_pure _
      · rw [aai_chunks_one]
        exact ErrOK_pure _
      · rw [aai_chunks_cons]
        apply ErrOK_bind (ErrOK_transfer o _)
        intro _
        apply ErrOK_bind (ErrOK_wait o true fuel)
        intro _
        apply ih
        simp only [List.length_cons] at h
        omega
  intro rest
  exact key rest.length rest le_rfl

/-! ### Once configured, no operation touches hold/wp again -/

lemma Preserves_bind {α β : Type} {x : M α} {f : α → M β}
    (hx : Preserves x) (hf : ∀ a, Preserves (f a)) : Preserves (M.bind x f) := by
  intro s hc
  rcases hxs : x s with ⟨r, s1⟩
  have hx1 := hx s hc
  rw [hxs] at hx1
  simp only [M.bind, hxs]
  cases r with
  | ok a =>
    have hf1 := hf a s1 hx1.1
    exact ⟨hf1.1, hf1.2.1.trans hx1.2.1, hf1.2.2.trans hx1.2.2⟩
  | err e => exact hx1
  | hang => exact hx1

lemma Preserves_pure {α : Type} (a : α) : Preserves (M.pure a) :=
  fun _ hc => ⟨hc, rfl, rfl⟩

lemma Preserves_throw {α : Type} (e : CommandError) : Preserves (M.throw (α := α) e) :=
  fun _ hc => ⟨hc, rfl, rfl⟩

lemma Preserves_pinEnableSet (o : Oracle) (high : Bool) : Preserves (pinEnableSet o high) := by
  intro s hc
  cases he : o.en (countEn s.events) <;> cases high <;> simp [pinEnableSet, he, hc]

lemma Preserves_busTransfer (o : Oracle) (data : List Nat) : Preserves (busTransfer o data) := by
  intro s hc
  cases he : o.bus (countXfers s.events) <;> simp [busTransfer, he, hc]

lemma Preserves_configure (o : Oracle) : Preserves (configure o) := by
  intro s hc
  rw [configure_done o hc]
  exact ⟨hc, rfl, rfl⟩

lemma Preserves_transfer (o : Oracle) (data : List Nat) : Preserves (transfer o data) := by
  rw [transfer]
  apply Preserves_bind (Preserves_configure o)
  intro _
  apply Preserves_bind (Preserves_pinEnableSet o false)
  intro _ s hc
  rcases hb : busTransfer o data s with ⟨rb, s1⟩
  have p1 := Preserves_busTransfer o data s hc
  rw [hb] at p1
  rcases hp : pinEnableSet o true s1 with ⟨rp, s2⟩
  have p2 := Preserves_pinEnableSet o true s1 p1.1
  rw [hp] at p2
  simp only [hb, hp]
  cases rp <;>
    exact ⟨p2.1, p2.2.1.trans p1.2.1, p2.2.2.trans p1.2.2⟩

lemma Preserves_read_status (o : Oracle) : Preserves (read_status o) := by
  rw [read_status]
  exact Preserves_bind (Preserves_transfer o _) (fun r => Preserves_pure _)

lemma Preserves_write_enable (o : Oracle) : Preserves (write_enable o) := by
  rw [write_enable]
  exact Preserves_bind (Preserves_transfer o _) (fun r => Preserves_pure _)

lemma Preserves_write_disable (o : Oracle) : Preserves (write_disable o) := by
  rw [write_disable]
  exact Preserves_bind (Preserves_transfer o _) (fun r => Preserves_pure _)

lemma Preserves_assert_not_busy (o : Oracle) : Preserves (assert_not_busy o) := by
  rw [assert_not_busy]
  apply Preserves_bind (Preserves_read_status o)
  intro st
  split
  · exact Preserves_throw _
  · exact Preserves_pure _

lemma Preserves_assert_valid_address (address : Nat) :
    Preserves (assert_valid_address address) := by
  intro s hc
  rw [assert_valid_address]
  split <;> exact ⟨hc, rfl, rfl⟩

lemma Preserves_write_status (o : Oracle) (st : Status) : Preserves (write_status o st) := by
  rw [write_status]
  apply Preserves_bind (Preserves_write_enable o)
  intro _
  apply Preserves_bind (Preserves_busTransfer o _)
  intro _
  exact Preserves_bind (Preserves_transfer o _) (fun _ => Preserves_pure _)

lemma Preserves_wait (o : Oracle) (force : Bool) : ∀ fuel, Preserves (wait o force fuel) := by
  intro fuel
  induction fuel with
  | zero =>
    intro s hc
    simp only [wait]
    split
    · rcases hr : read_status o s with ⟨rs, s1⟩
      have p1 := Preserves_read_status o s hc
      rw [hr] at p1
      cases rs with
      | ok st =>
        simp only
        split <;> exact p1
      | err e => exact p1
      | hang => exact p1
    · exact ⟨hc, rfl, rfl⟩
  | succ n ih =>
    intro s hc
    simp only [wait]
    split
    · rcases hr : read_status o s with ⟨rs, s1⟩
      have p1 := Preserves_read_status o s hc
      rw [hr] at p1
      cases rs with
      | ok st =>
        simp only
        split
        · have p2 := ih s1 p1.1
          exact ⟨p2.1, p2.2.1.trans p1.2.1, p2.2.2.trans p1.2.2⟩
        · exact p1
      | err e => exact p1
      | hang => exact p1
    · exact ⟨hc, rfl, rfl⟩

lemma Preserves_aai_chunks (o : Oracle) (fuel : Nat) :
    ∀ rest, Preserves (aai_chunks o fuel rest) := by
  have key : ∀ n rest, List.length rest ≤ n → Preserves (aai_chunks o fuel rest) := by
    intro n
    induction n with
    | zero =>
      intro rest h
      have h0 : rest = [] := List.length_eq_zero.mp (Nat.le_zero.mp h)
      subst h0
      rw [aai_chunks_nil]
      exact Preserves_pure _
    | succ n ih =>
      intro rest h
      rcases rest with _ | ⟨c0, _ | ⟨c1, rest2⟩⟩
      · rw [aai_chunks_nil]
        exact Preserves_pure _
      · rw [aai_chunks_one]
        exact Preserves_pure _
      · rw [aai_chunks_cons]
        apply Preserves_bind (Preserves_transfer o _)
        intro _
        apply Preserves_bind (Preserves_wait o true fuel)
        intro _
        apply ih
        simp only [List.length_cons] at h
        omega
  intro rest
  exact key rest.length rest le_rfl

lemma Preserves_erase_full (o : Oracle) (fuel : Nat) : Preserves (erase_full o fuel) := by
  rw [erase_full]
  apply Preserves_bind (Preserves_write_enable o)
  intro _
  apply Preserves_bind (Preserves_assert_not_busy o)
  intro _
  exact Preserves_bind (Preserves_transfer o _) (fun _ => Preserves_wait o false fuel)

lemma Preserves_byte_program (o : Oracle) (address data fuel : Nat) :
    Preserves (byte_program o address data fuel) := by
  rw [byte_program]
  apply Preserves_bind (Preserves_assert_valid_address address)
  intro _
  apply Preserves_bind (Preserves_write_enable o)
  intro _
  apply Preserves_bind (Preserves_assert_not_busy o)
  intro _
  exact Preserves_bind (Preserves_transfer o _) (fun _ => Preserves_wait o false fuel)

lemma Preserves_aai_program (o : Oracle) (address : Nat) (buffer : List Nat) (fuel : Nat) :
    Preserves (aai_program o address buffer fuel) := by
  rw [aai_program]
  apply Preserves_bind (Preserves_assert_valid_address address)
  intro _
  apply Preserves_bind ?h1
  case h1 =>
    split
    · exact Preserves_throw _
    · exact Preserves_pure _
  intro _
  apply Preserves_bind ?h2
  case h2 =>
    split
    · exact Preserves_throw _
    · exact Preserves_pure _
  intro _
  apply Preserves_bind (Preserves_write_enable o)
  intro _
  apply Preserves_bind (Preserves_assert_not_busy o)
  intro _
  apply Preserves_bind (Preserves_transfer o _)
  intro _
  apply Preserves_bind (Preserves_wait o true fuel)
  intro _
  exact Preserves_bind (Preserves_aai_chunks o fuel _) (fun _ => Preserves_write_disable o)

lemma Preserves_read (o : Oracle) (L address : Nat) : Preserves (read o L address) := by
  rw [read]
  apply Preserves_bind (Preserves_assert_valid_address address)
  intro _
  apply Preserves_bind (Preserves_configure o)
  intro _
  apply Preserves_bind (Preserves_pinEnableSet o false)
  intro _ s hc
  rcases h1 : busTransfer o (address_command address [0b00000011, 0x0, 0x0, 0x0]) s with ⟨r1, s1⟩
  have p1 := Preserves_busTransfer o (address_command address [0b00000011, 0x0, 0x0, 0x0]) s hc
  rw [h1] at p1
  simp only [h1]
  cases r1 with
  | ok d1 =>
    rcases h2 : busTransfer o (List.replicate L 0) s1 with ⟨r2, s2⟩
    have p2 := Preserves_busTransfer o (List.replicate L 0) s1 p1.1
    rw [h2] at p2
    simp only [h2]
    cases r2 with
    | ok d2 =>
      rcases h3 : pinEnableSet o true s2 with ⟨r3, s3⟩
      have p3 := Preserves_pinEnableSet o true s2 p2.1
      rw [h3] at p3
      simp only [h3]
      cases r3 <;>
        exact ⟨p3.1, (p3.2.1.trans p2.2.1).trans p1.2.1, (p3.2.2.trans p2.2.2).trans p1.2.2⟩
    | err e2 =>
      rcases h3 : pinEnableSet o true s2 with ⟨r3, s3⟩
      have p3 := Preserves_pinEnableSet o true s2 p2.1
      rw [h3] at p3
      simp only [h3]
      cases r3 <;>
        exact ⟨p3.1, (p3.2.1.trans p2.2.1).trans p1.2.1, (p3.2.2.trans p2.2.2).trans p1.2.2⟩
    | hang => exact ⟨p2.1, p2.2.1.trans p1.2.1, p2.2.2.trans p1.2.2⟩
  | err e1 =>
    rcases h2 : pinEnableSet o true s1 with ⟨r2, s2⟩
    have p2 := Preserves_pinEnableSet o true s1 p1.1
    rw [h2] at p2
    simp only [h2]
    cases r2 <;>
      exact ⟨p2.1, p2.2.1.trans p1.2.1, p2.2.2.trans p1.2.2⟩
  | hang => exact p1

/-! ### Running against the all-success, never-busy oracle -/

lemma M.pure_bind {α β : Type} (a : α) (f : α → M β) : M.bind (M.pure a) f = f a := rfl

lemma M.bind_ok2 {α β : Type} {x : M α} {f : α → M β} {s s1 : DeviceState} {a : α}
    {out : Outcome β × DeviceState}
    (h : x s = (.ok a, s1)) (h2 : f a s1 = out) : M.bind x f s = out :=
  (M.bind_ok h).trans h2

lemma assert_valid_address_ok {address : Nat} (h : address ≤ 16777216) (s : DeviceState) :
    assert_valid_address address s = (.ok (), s) := by
  rw [assert_valid_address, if_neg (by omega)]

lemma assert_valid_address_fail {address : Nat} (h : 16777216 < address) (s : DeviceState) :
    assert_valid_address address s = (.err .InvalidAddress, s) := by
  rw [assert_valid_address, if_pos (by omega)]

lemma transfer_clean (o : Oracle) (hEn : ∀ k, o.en k = .ok ())
    (hBus : ∀ k, o.bus k = .ok [0, 0]) (data : List Nat) {s : DeviceState}
    (hc : s.configured = true) :
    transfer o data s = (.ok [0, 0], { s with events := s.events ++ txnEvents data }) :=
  transfer_ok o data hc (hEn _) (hEn _) (hBus _)

lemma write_enable_clean (o : Oracle) (hEn : ∀ k, o.en k = .ok ())
    (hBus : ∀ k, o.bus k = .ok [0, 0]) {s : DeviceState} (hc : s.configured = true) :
    write_enable o s = (.ok (), { s with events := s.events ++ txnEvents [0b00000110] }) :=
  write_enable_ok o hc (hEn _) (hEn _) (hBus _)

lemma write_disable_clean (o : Oracle) (hEn : ∀ k, o.en k = .ok ())
    (hBus : ∀ k, o.bus k = .ok [0, 0]) {s : DeviceState} (hc : s.configured = true) :
    write_disable o s = (.ok (), { s with events := s.events ++ txnEvents [0b00000100] }) :=
  write_disable_ok o hc (hEn _) (hEn _) (hBus _)

lemma assert_not_busy_clean (o : Oracle) (hEn : ∀ k, o.en k = .ok ())
    (hBus : ∀ k, o.bus k = .ok [0, 0]) {s : DeviceState} (hc : s.configured = true) :
    assert_not_busy o s = (.ok (), { s with events := s.events ++ statusReadEvents }) :=
  assert_not_busy_clear o hc (hEn _) (hEn _) (hBus _) (by decide)

lemma wait_true_clean (o : Oracle) (hEn : ∀ k, o.en k = .ok ())
    (hBus : ∀ k, o.bus k = .ok [0, 0]) (fuel : Nat) {s : DeviceState}
    (hc : s.configured = true) :
    wait o true fuel s = (.ok (), { s with events := s.events ++ statusReadEvents }) :=
  wait_clear o true fuel (by simp) hc (hEn _) (hEn _) (hBus _) (by decide)

lemma aaiChunkEvents_nil : aaiChunkEvents [] = [] := rfl

lemma aaiChunkEvents_one (c : Nat) : aaiChunkEvents [c] = [] := rfl

lemma aaiChunkEvents_cons (c0 c1 : Nat) (rest : List Nat) :
    aaiChunkEvents (c0 :: c1 :: rest) =
      txnEvents [CMD_AAI_PROGRAM, c0, c1] ++ statusReadEvents ++ aaiChunkEvents rest := rfl

lemma aai_chunks_clean (o : Oracle) (hEn : ∀ k, o.en k = .ok ())
    (hBus : ∀ k, o.bus k = .ok [0, 0]) (fuel : Nat) :
    ∀ (rest : List Nat) (s : DeviceState), s.configured = true →
      aai_chunks o fuel rest s =
        (.ok (), { s with events := s.events ++ aaiChunkEvents rest }) := by
  have key : ∀ n rest, List.length rest ≤ n → ∀ s : DeviceState, s.configured = true →
      aai_chunks o fuel rest s =
        (.ok (), { s with events := s.events ++ aaiChunkEvents rest }) := by
    intro n
    induction n with
    | zero =>
      intro rest h s hc
      have h0 : rest = [] := List.length_eq_zero.mp (Nat.le_zero.mp h)
      subst h0
      rw [aai_chunks_nil, aaiChunkEvents_nil]
      simp [M.pure]
    | succ n ih =>
      intro rest h s hc
      rcases rest with _ | ⟨c0, _ | ⟨c1, rest2⟩⟩
      · rw [aai_chunks_nil, aaiChunkEvents_nil]
        simp [M.pure]
      · rw [aai_chunks_one, aaiChunkEvents_one]
        simp [M.pure]
      · rw [aai_chunks_cons]
        refine M.bind_ok2 (transfer_clean o hEn hBus _ hc) ?_
        refine M.bind_ok2 (wait_true_clean o hEn hBus fuel (by simpa using hc)) ?_
        rw [ih rest2 (by simp only [List.length_cons] at h; omega) _ (by simpa using hc)]
        simp [aaiChunkEvents_cons, List.append_assoc]
  intro rest s hc
  exact key rest.length rest le_rfl s hc

/-- **C4**: on an idle chip with a valid address and an even buffer of
at least 2 bytes, `aai_program` puts exactly the spec's wire protocol on
the bus — write-enable, one status pre-check, one first-chunk frame
`[0xAD, addr-hi, addr-mid, addr-lo, b0, b1]`, a forced status poll, then
per further 2-byte chunk one `[0xAD, c0, c1]` frame and a forced status
poll, and finally a single write-disable — for every state of the
blocking flag (the polls are forced). -/
theorem aai_chunking_protocol (o : Oracle) (hEn : ∀ k, o.en k = .ok ())
    (hBus : ∀ k, o.bus k = .ok [0, 0]) (address : Nat) (buffer : List Nat) (fuel : Nat)
    (s : DeviceState) (hc : s.configured = true) (ha : address ≤ 16777216)
    (h2 : 2 ≤ buffer.length) (hev : buffer.length % 2 = 0) :
    aai_program o address buffer fuel s =
      (.ok (), { s with events := s.events ++ aaiSpecTrace address buffer }) := by
  have hA : ¬ buffer.length < 2 := by omega
  have hB : ¬ (buffer.length &&& 1 == 1) = true := by
    rw [Nat.and_one_is_mod, hev]
    exact Bool.false_ne_true
  rw [aai_program, if_neg hA, if_neg hB]
  simp only [M.pure_bind]
  refine M.bind_ok2 (assert_valid_address_ok ha s) ?_
  refine M.bind_ok2 (write_enable_clean o hEn hBus hc) ?_
  refine M.bind_ok2 (assert_not_busy_clean o hEn hBus hc) ?_
  refine M.bind_ok2 (transfer_clean o hEn hBus _ hc) ?_
  refine M.bind_ok2 (wait_true_clean o hEn hBus fuel hc) ?_
  refine M.bind_ok2 (aai_chunks_clean o hEn hBus fuel _ _ hc) ?_
  refine Eq.trans (write_disable_clean o hEn hBus hc) ?_
  simp [aaiSpecTrace, address_command, List.append_assoc]

lemma status_roundtrip_fin :
    ∀ v : Fin 256, Status.to_registers (Status.from_register v.val) = v.val &&& 0b10111100 := by
  set_option maxRecDepth 8000 in decide

lemma address_command_16777216 (f : List Nat) :
    address_command 16777216 f = address_command 0 f := by
  have h16 : (16777216 >>> 16) % 256 = (0 >>> 16) % 256 := by decide
  have h8 : (16777216 >>> 8) % 256 = (0 >>> 8) % 256 := by decide
  have h0 : 16777216 % 256 = 0 % 256 := by decide
  rw [address_command, address_command, h16, h8, h0]

lemma assert_valid_16777216 : assert_valid_address 16777216 = assert_valid_address 0 := by
  funext s
  rw [assert_valid_address_ok (by norm_num) s, assert_valid_address_ok (by norm_num) s]

lemma ErrOK_assert_valid_address (address : Nat) :
    ErrOK (fun e => e = .InvalidAddress) (assert_valid_address address) := by
  intro s e h
  rw [assert_valid_address] at h
  split at h
  · cases h
    rfl
  · cases h

lemma M.throw_bind {α β : Type} (e : CommandError) (f : α → M β) :
    M.bind (M.throw e) f = M.throw e := rfl

/-! ### Claim theorems -/

/-- **C3**: for every byte value `v` in `0..=255`, re-encoding the
decoded status (`Status::to_registers ∘ Status::from_register`) keeps
exactly the five writable bits 2, 3, 4, 5 and 7 of `v` and zeroes bits
0, 1 and 6: it equals `v &&& 0b1011_1100`. -/
theorem status_roundtrip (v : Nat) (hv : v < 256) :
    Status.to_registers (Status.from_register v) = v &&& 0b10111100 :=
  status_roundtrip_fin ⟨v, hv⟩

theorem status_roundtrip_witness :
    231 < 256 ∧ Status.to_registers (Status.from_register 231) = 231 &&& 0b10111100 :=
  ⟨by decide, status_roundtrip 231 (by decide)⟩

/-- **C6**: address validation accepts exactly the addresses up to
16777216 (inclusive) and rejects every strictly greater one with
`InvalidAddress`; in `byte_program`, `aai_program` and `read` the check
runs first, so an invalid address produces the error with the device
state (and hence the bus/pin event trace) untouched. -/
theorem address_validation :
    (∀ a : Nat, a ≤ 16777216 → ∀ s, assert_valid_address a s = (.ok (), s)) ∧
    (∀ a : Nat, 16777216 < a → ∀ s, assert_valid_address a s = (.err .InvalidAddress, s)) ∧
    (∀ (o : Oracle) (a d fuel : Nat) s, 16777216 < a →
      byte_program o a d fuel s = (.err .InvalidAddress, s)) ∧
    (∀ (o : Oracle) (a : Nat) (buffer : List Nat) (fuel : Nat) s, 16777216 < a →
      aai_program o a buffer fuel s = (.err .InvalidAddress, s)) ∧
    (∀ (o : Oracle) (L a : Nat) s, 16777216 < a →
      read o L a s = (.err .InvalidAddress, s)) := by
  refine ⟨fun a ha s => assert_valid_address_ok ha s,
    fun a ha s => assert_valid_address_fail ha s, ?_, ?_, ?_⟩
  · intro o a d fuel s ha
    rw [byte_program]
    exact M.bind_err (assert_valid_address_fail ha s)
  · intro o a buffer fuel s ha
    rw [aai_program]
    exact M.bind_err (assert_valid_address_fail ha s)
  · intro o L a s ha
    rw [read]
    exact M.bind_err (assert_valid_address_fail ha s)

theorem address_validation_witness :
    assert_valid_address 16777216 configuredState = (.ok (), configuredState) ∧
    assert_valid_address 16777217 configuredState = (.err .InvalidAddress, configuredState) ∧
    byte_program cleanOracle 16777217 0 0 Flash.new = (.err .InvalidAddress, Flash.new) :=
  ⟨address_validation.1 16777216 (by decide) configuredState,
   address_validation.2.1 16777217 (by decide) configuredState,
   address_validation.2.2.1 cleanOracle 16777217 0 0 Flash.new (by decide)⟩

/-- **C7**: the address encoder keeps only the low 24 bits: it writes
`[(a >>> 16) % 256, (a >>> 8) % 256, a % 256]` into frame positions
1..3; consequently address 16777216 (which validation accepts) is
encoded exactly like address 0, and `byte_program`, `aai_program` and
`read` behave identically at the two addresses. -/
theorem address_truncation :
    (∀ (a b0 b1 b2 b3 : Nat) (rest : List Nat),
      address_command a (b0 :: b1 :: b2 :: b3 :: rest) =
        b0 :: (a >>> 16) % 256 :: (a >>> 8) % 256 :: a % 256 :: rest) ∧
    (∀ f : List Nat, address_command 16777216 f = address_command 0 f) ∧
    (∀ (o : Oracle) (d fuel : Nat) s,
      byte_program o 16777216 d fuel s = byte_program o 0 d fuel s) ∧
    (∀ (o : Oracle) (buffer : List Nat) (fuel : Nat) s,
      aai_program o 16777216 buffer fuel s = aai_program o 0 buffer fuel s) ∧
    (∀ (o : Oracle) (L : Nat) s, read o L 16777216 s = read o L 0 s) := by
  refine ⟨?_, address_command_16777216, ?_, ?_, ?_⟩
  · intro a b0 b1 b2 b3 rest
    simp [address_command]
  · intro o d fuel s
    rw [byte_program, byte_program, assert_valid_16777216, address_command_16777216]
  · intro o buffer fuel s
    rw [aai_program, aai_program, assert_valid_16777216, address_command_16777216]
  · intro o L s
    rw [read, read, assert_valid_16777216, address_command_16777216]

/-- **C2**: in every command transaction, once chip-enable has been
asserted low, the deassertion is attempted even when the bus exchange
fails (the trace always carries the trailing enable-high event); and
when the bus exchange fails and the deassertion then also fails, the
returned error is the enable-pin error, not the transfer error — both
for the `transfer` primitive and for the two exchanges of `read`. -/
theorem enable_line_unwind :
    (∀ (o : Oracle) (data : List Nat) (s : DeviceState),
      s.configured = true → o.en (countEn s.events) = .ok () →
      (transfer o data s).2 = { s with events := s.events ++ txnEvents data }) ∧
    (∀ (o : Oracle) (data : List Nat) (s : DeviceState) (e e2 : Nat),
      s.configured = true → o.en (countEn s.events) = .ok () →
      o.en (countEn s.events + 1) = .error e2 →
      o.bus (countXfers s.events) = .error e →
      transfer o data s =
        (.err (.EnablePinError e2), { s with events := s.events ++ txnEvents data })) ∧
    (∀ (o : Oracle) (L a : Nat) (s : DeviceState) (e e2 : Nat), a ≤ 16777216 →
      s.configured = true → o.en (countEn s.events) = .ok () →
      o.en (countEn s.events + 1) = .error e2 →
      o.bus (countXfers s.events) = .error e →
      read o L a s =
        (.err (.EnablePinError e2),
          { s with events := s.events ++
              txnEvents [0b00000011, (a >>> 16) % 256, (a >>> 8) % 256, a % 256] })) ∧
    (∀ (o : Oracle) (L a : Nat) (s : DeviceState) (r : List Nat) (e e2 : Nat), a ≤ 16777216 →
      s.configured = true → o.en (countEn s.events) = .ok () →
      o.en (countEn s.events + 1) = .error e2 →
      o.bus (countXfers s.events) = .ok r →
      o.bus (countXfers s.events + 1) = .error e →
      read o L a s =
        (.err (.EnablePinError e2),
          { s with events := s.events ++
              [Event.enLow,
               Event.xfer [0b00000011, (a >>> 16) % 256, (a >>> 8) % 256, a % 256],
               Event.xfer (List.replicate L 0), Event.enHigh] })) := by
  refine ⟨fun o data s hc h0 => transfer_events o data hc h0,
    fun o data s e e2 hc h0 h1 hb => transfer_busErr_enErr o data hc h0 h1 hb, ?_, ?_⟩
  · intro o L a s e e2 ha hc h0 h1 hb
    simp [read, M.bind, assert_valid_address, configure, pinEnableSet, busTransfer,
      (show ¬ 16777216 < a by omega), hc, h0, h1, hb, txnEvents, address_command]
  · intro o L a s r e e2 ha hc h0 h1 hb0 hb1
    simp [read, M.bind, assert_valid_address, configure, pinEnableSet, busTransfer,
      (show ¬ 16777216 < a by omega), hc, h0, h1, hb0, hb1, txnEvents, address_command]

theorem enable_line_unwind_witness :
    transfer unwindOracle [0x7] configuredState =
      (.err (.EnablePinError 21),
        { configured := true, blocking := true, events := (txnEvents [0x7]) }) := by
  have h := enable_line_unwind.2.1 unwindOracle [0x7] configuredState 30 21 rfl rfl rfl rfl
  refine h.trans ?_
  decide

/-- **C8**: for `erase_full`, `byte_program` and `aai_program`, a busy
pre-command status read makes the call return `Busy` after exactly the
write-enable transaction and that single status read — the primary
command is never sent; and neither the transaction primitive nor the
busy-wait loop can produce `Busy` on any other path. -/
theorem busy_precheck (o : Oracle) (s : DeviceState) (a d fuel : Nat) (buffer : List Nat)
    (r0 r1 : List Nat)
    (hc : s.configured = true)
    (hEn : ∀ k, o.en k = .ok ())
    (hb0 : o.bus (countXfers s.events) = .ok r0)
    (hb1 : o.bus (countXfers s.events + 1) = .ok r1)
    (hbusy : r1.getD 1 0 % 2 = 1)
    (ha : a ≤ 16777216) (hlen : 2 ≤ buffer.length) (hev : buffer.length % 2 = 0) :
    erase_full o fuel s =
      (.err .Busy, { s with events := s.events ++ txnEvents [0b00000110] ++ statusReadEvents }) ∧
    byte_program o a d fuel s =
      (.err .Busy, { s with events := s.events ++ txnEvents [0b00000110] ++ statusReadEvents }) ∧
    aai_program o a buffer fuel s =
      (.err .Busy, { s with events := s.events ++ txnEvents [0b00000110] ++ statusReadEvents }) ∧
    (∀ (data : List Nat) (s2 : DeviceState), (transfer o data s2).1 ≠ .err .Busy) ∧
    (∀ (force : Bool) (fuel2 : Nat) (s2 : DeviceState),
      (wait o force fuel2 s2).1 ≠ .err .Busy) := by
  have hA : ¬ buffer.length < 2 := by omega
  have hB : ¬ (buffer.length &&& 1 == 1) = true := by
    rw [Nat.and_one_is_mod, hev]
    exact Bool.false_ne_true
  refine ⟨?_, ?_, ?_, ?_, ?_⟩
  · rw [erase_full]
    refine M.bind_ok2 (write_enable_ok o hc (hEn _) (hEn _) hb0) ?_
    refine Eq.trans
      (M.bind_err (assert_not_busy_busy o hc (hEn _) (hEn _) (by simpa using hb1) hbusy)) ?_
    simp [List.append_assoc]
  · rw [byte_program]
    refine M.bind_ok2 (assert_valid_address_ok ha s) ?_
    refine M.bind_ok2 (write_enable_ok o hc (hEn _) (hEn _) hb0) ?_
    refine Eq.trans
      (M.bind_err (assert_not_busy_busy o hc (hEn _) (hEn _) (by simpa using hb1) hbusy)) ?_
    simp [List.append_assoc]
  · rw [aai_program, if_neg hA, if_neg hB]
    simp only [M.pure_bind]
    refine M.bind_ok2 (assert_valid_address_ok ha s) ?_
    refine M.bind_ok2 (write_enable_ok o hc (hEn _) (hEn _) hb0) ?_
    refine Eq.trans
      (M.bind_err (assert_not_busy_busy o hc (hEn _) (hEn _) (by simpa using hb1) hbusy)) ?_
    simp [List.append_assoc]
  · intro data s2 h
    exact ErrOK_transfer o data s2 _ h
  · intro force fuel2 s2 h
    exact ErrOK_wait o force fuel2 s2 _ h

theorem busy_precheck_witness :
    erase_full busyNowOracle 5 configuredState =
      (.err .Busy,
        { configuredState with events := txnEvents [0b00000110] ++ statusReadEvents }) ∧
    byte_program busyNowOracle 200 100 5 configuredState =
      (.err .Busy,
        { configuredState with events := txnEvents [0b00000110] ++ statusReadEvents }) ∧
    aai_program busyNowOracle 200 [1, 2] 5 configuredState =
      (.err .Busy,
        { configuredState with events := txnEvents [0b00000110] ++ statusReadEvents }) := by
  have h := busy_precheck busyNowOracle configuredState 200 100 5 [1, 2] [0, 0] [0, 1]
    rfl (fun k => rfl) rfl rfl (by decide) (by decide) (by decide) (by decide)
  exact ⟨by simpa using h.1, by simpa using h.2.1, by simpa using h.2.2.1⟩

/-- **C9**: with a valid address, `aai_program` rejects a buffer shorter
than 2 bytes with `BufferTooSmall`, and an odd buffer of at least 3
bytes with `BufferUneven`, in both cases before any bus transaction
(state unchanged); an even buffer of length at least 2 passes both
checks — neither buffer error can be produced then. -/
theorem aai_buffer_validation (o : Oracle) (a : Nat) (buffer : List Nat) (fuel : Nat)
    (s : DeviceState) (ha : a ≤ 16777216) :
    (buffer.length < 2 → aai_program o a buffer fuel s = (.err .BufferTooSmall, s)) ∧
    (3 ≤ buffer.length → buffer.length % 2 = 1 →
      aai_program o a buffer fuel s = (.err .BufferUneven, s)) ∧
    (2 ≤ buffer.length → buffer.length % 2 = 0 →
      (aai_program o a buffer fuel s).1 ≠ .err .BufferTooSmall ∧
      (aai_program o a buffer fuel s).1 ≠ .err .BufferUneven) := by
  refine ⟨?_, ?_, ?_⟩
  · intro hlt
    rw [aai_program]
    refine M.bind_ok2 (assert_valid_address_ok ha s) ?_
    rw [if_pos hlt, M.throw_bind]
    rfl
  · intro h3 hodd
    rw [aai_program]
    refine M.bind_ok2 (assert_valid_address_ok ha s) ?_
    rw [if_neg (by omega), M.pure_bind,
      if_pos (show (buffer.length &&& 1 == 1) = true by rw [Nat.and_one_is_mod, hodd]; rfl),
      M.throw_bind]
    rfl
  · intro h2 hev
    have hA : ¬ buffer.length < 2 := by omega
    have hB : ¬ (buffer.length &&& 1 == 1) = true := by
      rw [Nat.and_one_is_mod, hev]
      exact Bool.false_ne_true
    have hchain : ErrOK (fun e => HwErr e ∨ e = .Busy ∨ e = .InvalidAddress)
        (aai_program o a buffer fuel) := by
      rw [aai_program, if_neg hA, if_neg hB]
      simp only [M.pure_bind]
      apply ErrOK_bind
        (ErrOK_mono (ErrOK_assert_valid_address a) (fun e he => Or.inr (Or.inr he)))
      intro _
      apply ErrOK_bind (ErrOK_mono (ErrOK_write_enable o) (fun e he => Or.inl he))
      intro _
      apply ErrOK_bind (ErrOK_mono (ErrOK_assert_not_busy o)
        (fun e he => he.elim Or.inl (fun hb => Or.inr (Or.inl hb))))
      intro _
      apply ErrOK_bind (ErrOK_mono (ErrOK_transfer o _) (fun e he => Or.inl he))
      intro _
      apply ErrOK_bind (ErrOK_mono (ErrOK_wait o true fuel) (fun e he => Or.inl he))
      intro _
      apply ErrOK_bind (ErrOK_mono (ErrOK_aai_chunks o fuel _) (fun e he => Or.inl he))
      intro _
      exact ErrOK_mono (ErrOK_write_disable o) (fun e he => Or.inl he)
    constructor
    · intro hcon
      rcases hchain s _ hcon with h | h | h
      · exact h
      · cases h
      · cases h
    · intro hcon
      rcases hchain s _ hcon with h | h | h
      · exact h
      · cases h
      · cases h

theorem aai_buffer_validation_witness :
    aai_program cleanOracle 5 [1] 5 configuredState = (.err .BufferTooSmall, configuredState) ∧
    aai_program cleanOracle 5 [1, 2, 3] 5 configuredState =
      (.err .BufferUneven, configuredState) ∧
    (aai_program cleanOracle 5 [1, 2] 5 configuredState).1 ≠ .err .BufferTooSmall := by
  have h1 := aai_buffer_validation cleanOracle 5 [1] 5 configuredState (by decide)
  have h2 := aai_buffer_validation cleanOracle 5 [1, 2, 3] 5 configuredState (by decide)
  have h3 := aai_buffer_validation cleanOracle 5 [1, 2] 5 configuredState (by decide)
  exact ⟨h1.1 (by decide), h2.2.1 (by decide) (by decide),
    (h3.2.2 (by decide) (by decide)).1⟩

theorem aai_chunking_protocol_witness :
    aai_program cleanOracle 0x7A120 [0x96, 0x64, 0x44, 0x55, 0x66, 0x77] 5 configuredState =
      (.ok (), { configuredState with events :=
        (txnEvents [0b00000110] ++ statusReadEvents ++
         txnEvents [0xAD, 0x07, 0xA1, 0x20, 0x96, 0x64] ++ statusReadEvents ++
         txnEvents [0xAD, 0x44, 0x55] ++ statusReadEvents ++
         txnEvents [0xAD, 0x66, 0x77] ++ statusReadEvents ++
         txnEvents [0b00000100]) }) := by
  have h := aai_chunking_protocol cleanOracle (fun k => rfl) (fun k => rfl) 0x7A120
    [0x96, 0x64, 0x44, 0x55, 0x66, 0x77] 5 configuredState rfl (by decide) (by decide)
    (by decide)
  refine h.trans ?_
  decide

/-- **C5**: `byte_program`'s completion wait respects the blocking
flag.  In blocking mode, when the status reads after the program
command answer busy, busy, not-busy, the call performs exactly 3
status-read transactions after the program frame and returns Ok; in
non-blocking mode, with the same chip responses available, it returns
Ok right after the program frame with zero further status reads. -/
theorem byte_program_blocking_polls :
    (∀ (o : Oracle) (s : DeviceState) (a d fuel : Nat) (r0 r1 r2 r3 r4 r5 : List Nat),
      a ≤ 16777216 → s.configured = true → s.blocking = true →
      (∀ k, o.en k = .ok ()) →
      o.bus (countXfers s.events) = .ok r0 →
      o.bus (countXfers s.events + 1) = .ok r1 → r1.getD 1 0 % 2 = 0 →
      o.bus (countXfers s.events + 2) = .ok r2 →
      o.bus (countXfers s.events + 3) = .ok r3 → r3.getD 1 0 % 2 = 1 →
      o.bus (countXfers s.events + 4) = .ok r4 → r4.getD 1 0 % 2 = 1 →
      o.bus (countXfers s.events + 5) = .ok r5 → r5.getD 1 0 % 2 = 0 →
      byte_program o a d (fuel + 2) s =
        (.ok (), { s with events := (s.events ++
          txnEvents [0b00000110] ++ statusReadEvents ++
          txnEvents [0b00000010, (a >>> 16) % 256, (a >>> 8) % 256, a % 256, d] ++
          statusReadEvents ++ statusReadEvents ++ statusReadEvents) })) ∧
    (∀ (o : Oracle) (s : DeviceState) (a d fuel : Nat) (r0 r1 r2 : List Nat),
      a ≤ 16777216 → s.configured = true → s.blocking = false →
      (∀ k, o.en k = .ok ()) →
      o.bus (countXfers s.events) = .ok r0 →
      o.bus (countXfers s.events + 1) = .ok r1 → r1.getD 1 0 % 2 = 0 →
      o.bus (countXfers s.events + 2) = .ok r2 →
      byte_program o a d fuel s =
        (.ok (), { s with events := (s.events ++
          txnEvents [0b00000110] ++ statusReadEvents ++
          txnEvents [0b00000010, (a >>> 16) % 256, (a >>> 8) % 256, a % 256, d]) })) := by
  constructor
  · intro o s a d fuel r0 r1 r2 r3 r4 r5 ha hc hbl hEn hb0 hb1 hclear1 hb2 hb3 hbusy3
      hb4 hbusy4 hb5 hclear5
    rw [byte_program]
    refine M.bind_ok2 (assert_valid_address_ok ha s) ?_
    refine M.bind_ok2 (write_enable_ok o hc (hEn _) (hEn _) hb0) ?_
    refine M.bind_ok2
      (assert_not_busy_clear o hc (hEn _) (hEn _) (by simpa using hb1) hclear1) ?_
    refine M.bind_ok2 (transfer_ok o _ hc (hEn _) (hEn _) (by simpa using hb2)) ?_
    refine Eq.trans (wait_busy_succ o false (fuel + 1) (by simpa using hbl) hc
      (hEn _) (hEn _) (by simpa using hb3) hbusy3) ?_
    refine Eq.trans (wait_busy_succ o false fuel (by simpa using hbl) hc
      (hEn _) (hEn _) (by simpa using hb4) hbusy4) ?_
    refine Eq.trans (wait_clear o false fuel (by simpa using hbl) hc
      (hEn _) (hEn _) (by simpa using hb5) hclear5) ?_
    simp [address_command, List.append_assoc]
  · intro o s a d fuel r0 r1 r2 ha hc hnb hEn hb0 hb1 hclear1 hb2
    rw [byte_program]
    refine M.bind_ok2 (assert_valid_address_ok ha s) ?_
    refine M.bind_ok2 (write_enable_ok o hc (hEn _) (hEn _) hb0) ?_
    refine M.bind_ok2
      (assert_not_busy_clear o hc (hEn _) (hEn _) (by simpa using hb1) hclear1) ?_
    refine M.bind_ok2 (transfer_ok o _ hc (hEn _) (hEn _) (by simpa using hb2)) ?_
    refine Eq.trans (wait_noblock o fuel (by simpa using hnb)) ?_
    simp [address_command, List.append_assoc]

theorem byte_program_blocking_polls_witness :
    byte_program busyThenClearOracle 0xc8 0x64 2 configuredState =
      (.ok (), { configured := true, blocking := true, events :=
        (txnEvents [0b00000110] ++ statusReadEvents ++
         txnEvents [0b00000010, 0x0, 0x0, 0xc8, 0x64] ++
         statusReadEvents ++ statusReadEvents ++ statusReadEvents) }) ∧
    byte_program busyThenClearOracle 0xc8 0x64 0 (set_non_blocking configuredState) =
      (.ok (), { configured := true, blocking := false, events :=
        (txnEvents [0b00000110] ++ statusReadEvents ++
         txnEvents [0b00000010, 0x0, 0x0, 0xc8, 0x64]) }) := by
  constructor
  · have h := byte_program_blocking_polls.1 busyThenClearOracle configuredState 0xc8 0x64 0
      [0, 0] [0, 0] [0, 0] [0, 1] [0, 1] [0, 0] (by decide) rfl rfl (fun k => rfl)
      rfl rfl (by decide) rfl rfl (by decide) rfl (by decide) rfl (by decide)
    refine h.trans ?_
    decide
  · have h := byte_program_blocking_polls.2 busyThenClearOracle
      (set_non_blocking configuredState) 0xc8 0x64 0 [0, 0] [0, 0] [0, 0]
      (by decide) rfl rfl (fun k => rfl) rfl rfl (by decide) rfl
    refine h.trans ?_
    decide

/-- Refutes **C1** as stated: a successful non-blocking `erase_full`
returns Ok with the erase command as the final bus transaction — no
status read after the command at all, although the chip (the oracle)
would answer busy on the very next status read.  `erase_full` calls
`wait(false)`, so it does not poll to completion regardless of the
blocking flag. -/
theorem erase_full_nonblocking_counterexample :
    erase_full busyAfterOracle 9 (set_non_blocking configuredState) =
      (.ok (), { configured := true, blocking := false, events :=
        (txnEvents [0b00000110] ++ statusReadEvents ++ txnEvents [0b01100000]) }) ∧
    busyAfterOracle.bus 3 = .ok [0, 1] := by
  constructor
  · rw [erase_full]
    refine M.bind_ok2 (write_enable_ok busyAfterOracle rfl rfl rfl rfl) ?_
    refine M.bind_ok2
      (assert_not_busy_clear busyAfterOracle rfl rfl rfl rfl (by decide)) ?_
    refine M.bind_ok2 (transfer_ok busyAfterOracle _ rfl rfl rfl rfl) ?_
    refine Eq.trans (wait_noblock busyAfterOracle 9 rfl) ?_
    decide
  · rfl

/-- **C1 (amended)**: `erase_full`'s completion wait honours the
blocking flag (the source passes `force = false` to `wait`).  In
non-blocking mode a successful call issues write-enable, one status
pre-check and the erase command, and returns Ok with no status read
after the command; in blocking mode, with the chip answering busy,
busy, not-busy after the command, it polls exactly 3 more times before
returning Ok. -/
theorem erase_full_respects_blocking :
    (∀ (o : Oracle) (s : DeviceState) (fuel : Nat) (r0 r1 r2 : List Nat),
      s.configured = true → s.blocking = false →
      (∀ k, o.en k = .ok ()) →
      o.bus (countXfers s.events) = .ok r0 →
      o.bus (countXfers s.events + 1) = .ok r1 → r1.getD 1 0 % 2 = 0 →
      o.bus (countXfers s.events + 2) = .ok r2 →
      erase_full o fuel s =
        (.ok (), { s with events := (s.events ++
          txnEvents [0b00000110] ++ statusReadEvents ++ txnEvents [0b01100000]) })) ∧
    (∀ (o : Oracle) (s : DeviceState) (fuel : Nat) (r0 r1 r2 r3 r4 r5 : List Nat),
      s.configured = true → s.blocking = true →
      (∀ k, o.en k = .ok ()) →
      o.bus (countXfers s.events) = .ok r0 →
      o.bus (countXfers s.events + 1) = .ok r1 → r1.getD 1 0 % 2 = 0 →
      o.bus (countXfers s.events + 2) = .ok r2 →
      o.bus (countXfers s.events + 3) = .ok r3 → r3.getD 1 0 % 2 = 1 →
      o.bus (countXfers s.events + 4) = .ok r4 → r4.getD 1 0 % 2 = 1 →
      o.bus (countXfers s.events + 5) = .ok r5 → r5.getD 1 0 % 2 = 0 →
      erase_full o (fuel + 2) s =
        (.ok (), { s with events := (s.events ++
          txnEvents [0b00000110] ++ statusReadEvents ++ txnEvents [0b01100000] ++
          statusReadEvents ++ statusReadEvents ++ statusReadEvents) })) := by
  constructor
  · intro o s fuel r0 r1 r2 hc hnb hEn hb0 hb1 hclear hb2
    rw [erase_full]
    refine M.bind_ok2 (write_enable_ok o hc (hEn _) (hEn _) hb0) ?_
    refine M.bind_ok2
      (assert_not_busy_clear o hc (hEn _) (hEn _) (by simpa using hb1) hclear) ?_
    refine M.bind_ok2 (transfer_ok o _ hc (hEn _) (hEn _) (by simpa using hb2)) ?_
    refine Eq.trans (wait_noblock o fuel (by simpa using hnb)) ?_
    simp [List.append_assoc]
  · intro o s fuel r0 r1 r2 r3 r4 r5 hc hbl hEn hb0 hb1 hclear1 hb2 hb3 hbusy3 hb4 hbusy4
      hb5 hclear5
    rw [erase_full]
    refine M.bind_ok2 (write_enable_ok o hc (hEn _) (hEn _) hb0) ?_
    refine M.bind_ok2
      (assert_not_busy_clear o hc (hEn _) (hEn _) (by simpa using hb1) hclear1) ?_
    refine M.bind_ok2 (transfer_ok o _ hc (hEn _) (hEn _) (by simpa using hb2)) ?_
    refine Eq.trans (wait_busy_succ o false (fuel + 1) (by simpa using hbl) hc
      (hEn _) (hEn _) (by simpa using hb3) hbusy3) ?_
    refine Eq.trans (wait_busy_succ o false fuel (by simpa using hbl) hc
      (hEn _) (hEn _) (by simpa using hb4) hbusy4) ?_
    refine Eq.trans (wait_clear o false fuel (by simpa using hbl) hc
      (hEn _) (hEn _) (by simpa using hb5) hclear5) ?_
    simp [List.append_assoc]

theorem erase_full_respects_blocking_witness :
    erase_full busyThenClearOracle 5 (set_non_blocking configuredState) =
      (.ok (), { configured := true, blocking := false, events :=
        (txnEvents [0b00000110] ++ statusReadEvents ++ txnEvents [0b01100000]) }) ∧
    erase_full busyThenClearOracle 5 configuredState =
      (.ok (), { configured := true, blocking := true, events :=
        (txnEvents [0b00000110] ++ statusReadEvents ++ txnEvents [0b01100000] ++
         statusReadEvents ++ statusReadEvents ++ statusReadEvents) }) := by
  constructor
  · have h := erase_full_respects_blocking.1 busyThenClearOracle
      (set_non_blocking configuredState) 5 [0, 0] [0, 0] [0, 0] rfl rfl (fun k => rfl)
      rfl rfl (by decide) rfl
    refine h.trans ?_
    decide
  · have h := erase_full_respects_blocking.2 busyThenClearOracle configuredState 3
      [0, 0] [0, 0] [0, 0] [0, 1] [0, 1] [0, 0] rfl rfl (fun k => rfl)
      rfl rfl (by decide) rfl rfl (by decide) rfl (by decide) rfl (by decide)
    refine h.trans ?_
    decide

/-- **C10**: the `configured` flag starts false at construction and
transitions to true exactly on the first successful one-time
configuration (hold high then write-protect low); a pin failure leaves
it false with the successful prefix of pin events recorded, so the next
operation retries; and once configured, every operation keeps the flag
true and never touches the hold or write-protect pins again. -/
theorem configured_lifecycle :
    Flash.new.configured = false ∧
    (∀ (o : Oracle) (s : DeviceState), s.configured = true → configure o s = (.ok (), s)) ∧
    (∀ (o : Oracle) (s : DeviceState) (e : Nat), s.configured = false →
      o.hold (countHold s.events) = .error e →
      configure o s = (.err (.HoldPinError e),
        { s with events := s.events ++ [Event.holdHigh] })) ∧
    (∀ (o : Oracle) (s : DeviceState) (e : Nat), s.configured = false →
      o.hold (countHold s.events) = .ok () → o.wp (countWp s.events) = .error e →
      configure o s = (.err (.WriteProtectionPinError e),
        { s with events := s.events ++ [Event.holdHigh, Event.wpLow] })) ∧
    (∀ (o : Oracle) (s : DeviceState), s.configured = false →
      o.hold (countHold s.events) = .ok () → o.wp (countWp s.events) = .ok () →
      configure o s = (.ok (),
        { s with configured := true, events := s.events ++ [Event.holdHigh, Event.wpLow] })) ∧
    (∀ o : Oracle, Preserves (read_status o)) ∧
    (∀ o : Oracle, Preserves (write_enable o)) ∧
    (∀ o : Oracle, Preserves (write_disable o)) ∧
    (∀ (o : Oracle) (st : Status), Preserves (write_status o st)) ∧
    (∀ (o : Oracle) (fuel : Nat), Preserves (erase_full o fuel)) ∧
    (∀ (o : Oracle) (a d fuel : Nat), Preserves (byte_program o a d fuel)) ∧
    (∀ (o : Oracle) (a : Nat) (b : List Nat) (fuel : Nat),
      Preserves (aai_program o a b fuel)) ∧
    (∀ (o : Oracle) (L a : Nat), Preserves (read o L a)) := by
  refine ⟨rfl, fun o s hc => configure_done o hc, ?_, ?_, ?_,
    fun o => Preserves_read_status o,
    fun o => Preserves_write_enable o,
    fun o => Preserves_write_disable o,
    fun o st => Preserves_write_status o st,
    fun o fuel => Preserves_erase_full o fuel,
    fun o a d fuel => Preserves_byte_program o a d fuel,
    fun o a b fuel => Preserves_aai_program o a b fuel,
    fun o L a => Preserves_read o L a⟩
  · intro o s e hc hh
    simp [configure, holdSetHigh, hc, hh]
  · intro o s e hc hh hw
    simp [configure, holdSetHigh, wpSetLow, hc, hh, hw]
  · intro o s hc hh hw
    simp [configure, holdSetHigh, wpSetLow, hc, hh, hw]

theorem configured_lifecycle_witness :
    configure cleanOracle Flash.new =
      (.ok (),
        { configured := true, blocking := true, events := ([Event.holdHigh, Event.wpLow]) }) :=
        by
  have h := configured_lifecycle.2.2.2.2.1 cleanOracle Flash.new rfl rfl rfl
  refine h.trans ?_
  decide

end Sst25
